import Mathlib

/-!
Shallow embedding of the leaflet-polygon-manager core: the data model of
`app/models.py` and the CRUD service of `app/polygon_service.py`.

Modelling conventions:
  * `datetime.utcnow()` is modelled by a monotone `Nat` clock held in the
    database state; each call to `utcnow` during a committing operation
    advances the clock, so `created_at` stamps are strictly increasing
    across creations.  `isoformat` is modelled by an injective
    serialisation of the clock value to `String`.
  * Python `float` coordinate scalars are modelled by `Rat`: the service
    performs no arithmetic on coordinates, it only stores and returns them.
  * JSON-compatible `properties` values are modelled by the inductive
    `JsonValue`; a `Dict[str, Any]` is a list of key/value pairs.
  * `app/database.py` is not part of the sources. Modelled from the spec:
    `get_session` yields a scoped session/transaction whose uncommitted
    changes are discarded when an error aborts the operation ("no partial
    side effects", §5/§7 of the spec); the stored table is keyed by an
    auto-increment integer id starting at 1 (§2, §3).  A storage-layer
    error may be raised at any of the session calls an operation performs
    (`session.get` / `session.exec`, `session.commit`, `session.refresh`);
    the per-operation error type below names those call sites, and the
    state is changed exactly when `session.commit` has executed.
-/

/-- JSON-compatible property values (`Dict[str, Any]` with JSON column). -/
inductive JsonValue where
  | str : String → JsonValue
  | num : Rat → JsonValue
  | bool : Bool → JsonValue
  | null : JsonValue
  | arr : List JsonValue → JsonValue
  | obj : List (String × JsonValue) → JsonValue

/-- `List[List[List[float]]]`: a sequence of rings of [lon, lat] pairs. -/
abbrev Coordinates := List (List (List Rat))

/-- `Dict[str, Any]` stored in a JSON column. -/
abbrev Properties := List (String × JsonValue)

/-- The persisted row (`class Polygon(SQLModel, table=True)`): `id` is
`Optional[int]` (None until storage assigns it), `created_at` defaults to
`datetime.utcnow`, `updated_at` defaults to None. -/
structure Polygon where
  id : Option Nat
  name : String
  coordinates : Coordinates
  properties : Properties
  created_at : Nat
  updated_at : Option Nat

/-- `Polygon.update_timestamp`: set `updated_at` to the current time. -/
def Polygon.update_timestamp (p : Polygon) (now : Nat) : Polygon :=
  { p with updated_at := some now }

/-- `PolygonCreate` request payload. -/
structure PolygonCreate where
  name : String
  coordinates : Coordinates
  properties : Properties

/-- Pydantic validation of `PolygonCreate`: `name` has `min_length=1,
max_length=255` (character count, no trimming), `coordinates` has
`min_items=1`.  A request object only exists if this holds. -/
def PolygonCreate.valid (d : PolygonCreate) : Bool :=
  decide (1 ≤ d.name.length) && decide (d.name.length ≤ 255) &&
    decide (d.coordinates ≠ [])

/-- `PolygonUpdate` request payload: every field optional, `None` means
"field not supplied". -/
structure PolygonUpdate where
  name : Option String
  coordinates : Option Coordinates
  properties : Option Properties

/-- Pydantic validation of `PolygonUpdate`: a supplied `name` has
`min_length=1, max_length=255`; supplied `coordinates` have `min_items=1`. -/
def PolygonUpdate.valid (d : PolygonUpdate) : Bool :=
  (match d.name with
   | none => true
   | some n => decide (1 ≤ n.length) && decide (n.length ≤ 255)) &&
  (match d.coordinates with
   | none => true
   | some c => decide (c ≠ []))

/-- Model of `datetime.isoformat()`: an injective rendering of the clock
value as a string. -/
def isoformat (t : Nat) : String :=
  toString t

/-- `PolygonResponse`: the API response shape with string timestamps. -/
structure PolygonResponse where
  id : Nat
  name : String
  coordinates : Coordinates
  properties : Properties
  created_at : String
  updated_at : Option String

/-- `PolygonResponse.from_polygon`: `id` falls back to 0 when unassigned,
timestamps are serialised with `isoformat`. -/
def PolygonResponse.from_polygon (p : Polygon) : PolygonResponse :=
  { id := p.id.getD 0
    name := p.name
    coordinates := p.coordinates
    properties := p.properties
    created_at := isoformat p.created_at
    updated_at := p.updated_at.map isoformat }

/-- `PolygonListResponse`. -/
structure PolygonListResponse where
  polygons : List PolygonResponse
  total : Nat

/-- The stored state: the `polygons` table in insertion order, the
auto-increment counter, and the model clock. -/
structure DB where
  rows : List Polygon
  nextId : Nat
  clock : Nat

/-- The freshly created (or reset) database: no rows, ids start at 1. -/
def emptyDB : DB :=
  { rows := [], nextId := 1, clock := 0 }

/-- Storage call sites of `create_polygon` at which an error can be
raised: the INSERT at `session.commit`, or the SELECT at
`session.refresh` (which runs after the commit). -/
inductive CreateErr where
  | atCommit
  | atRefresh
deriving DecidableEq

/-- Storage call sites of `update_polygon`: the SELECT at `session.get`,
the UPDATE at `session.commit`, or the SELECT at `session.refresh`. -/
inductive UpdateErr where
  | atGet
  | atCommit
  | atRefresh
deriving DecidableEq

/-- Storage call sites of `delete_polygon`: the SELECT at `session.get`
or the DELETE at `session.commit`. -/
inductive DeleteErr where
  | atGet
  | atCommit
deriving DecidableEq

/-- `PolygonService.create_polygon`.  Builds the row (stamping
`created_at` from the current clock), commits it (storage assigns
`nextId` as id), refreshes, checks `polygon.id is None`, and returns the
response; any raised error is caught and converted to `None`.  An error
at `session.refresh` occurs after the commit, so the inserted row stays. -/
def create_polygon (err : Option CreateErr) (db : DB) (d : PolygonCreate) :
    Option PolygonResponse × DB :=
  let p0 : Polygon :=
    { id := none, name := d.name, coordinates := d.coordinates
      properties := d.properties, created_at := db.clock, updated_at := none }
  if err = some CreateErr.atCommit then (none, db)
  else
    let p1 : Polygon := { p0 with id := some db.nextId }
    let db1 : DB :=
      { rows := db.rows ++ [p1], nextId := db.nextId + 1, clock := db.clock + 1 }
    if err = some CreateErr.atRefresh then (none, db1)
    else
      match p1.id with
      | none => (none, db1)
      | some _ => (some (PolygonResponse.from_polygon p1), db1)

/-- `PolygonService.get_polygon`: fetch by primary key; `None` on a
missing id and on any storage error.  The operation performs no write,
so it returns no state. -/
def get_polygon (err : Bool) (db : DB) (pid : Nat) : Option PolygonResponse :=
  if err then none
  else
    match db.rows.find? (fun q => q.id == some pid) with
    | none => none
    | some p => some (PolygonResponse.from_polygon p)

/-- Descending insertion by `created_at` (auxiliary to `sortDesc`). -/
def insertDesc (p : Polygon) : List Polygon → List Polygon
  | [] => [p]
  | q :: qs =>
      if q.created_at ≤ p.created_at then p :: q :: qs
      else q :: insertDesc p qs

/-- `select(Polygon).order_by(desc(Polygon.created_at))`: the rows sorted
by `created_at` descending. -/
def sortDesc : List Polygon → List Polygon
  | [] => []
  | p :: ps => insertDesc p (sortDesc ps)

/-- `PolygonService.list_polygons`: all rows ordered by `created_at`
descending, with `total = len(...)`; an empty response on any storage
error.  The operation performs no write, so it returns no state. -/
def list_polygons (err : Bool) (db : DB) : PolygonListResponse :=
  if err then { polygons := [], total := 0 }
  else
    let resps := (sortDesc db.rows).map PolygonResponse.from_polygon
    { polygons := resps, total := resps.length }

/-- The field overwrites of `update_polygon`: each supplied field
replaces the stored one, omitted fields stay, and `update_timestamp`
stamps `updated_at` with the current time. -/
def applyUpdate (d : PolygonUpdate) (now : Nat) (p : Polygon) : Polygon :=
  Polygon.update_timestamp
    { p with
      name := d.name.getD p.name
      coordinates := d.coordinates.getD p.coordinates
      properties := d.properties.getD p.properties }
    now

/-- `PolygonService.update_polygon`: fetch by primary key (`None` when
absent), overwrite exactly the supplied fields, stamp `updated_at` via
`update_timestamp`, commit, refresh, and return the response; any raised
error is caught and converted to `None`.  An error before the commit
leaves the state unchanged (the session discards the in-memory
mutation); an error at `session.refresh` occurs after the commit. -/
def update_polygon (err : Option UpdateErr) (db : DB) (pid : Nat)
    (d : PolygonUpdate) : Option PolygonResponse × DB :=
  if err = some UpdateErr.atGet then (none, db)
  else
    match db.rows.find? (fun q => q.id == some pid) with
    | none => (none, db)
    | some p =>
      let p1 : Polygon := applyUpdate d db.clock p
      if err = some UpdateErr.atCommit then (none, db)
      else
        let db1 : DB :=
          { rows := db.rows.map (fun q => if q.id == some pid then p1 else q)
            nextId := db.nextId, clock := db.clock + 1 }
        if err = some UpdateErr.atRefresh then (none, db1)
        else (some (PolygonResponse.from_polygon p1), db1)

/-- `PolygonService.delete_polygon`: fetch by primary key (`False` when
absent), delete the row and commit, returning `True`; any raised error
is caught and converted to `False`, with the delete rolled back. -/
def delete_polygon (err : Option DeleteErr) (db : DB) (pid : Nat) :
    Bool × DB :=
  if err = some DeleteErr.atGet then (false, db)
  else
    match db.rows.find? (fun q => q.id == some pid) with
    | none => (false, db)
    | some _ =>
      if err = some DeleteErr.atCommit then (false, db)
      else
        (true, { db with rows := db.rows.eraseP (fun q => q.id == some pid) })

/-- States reachable through the service.  Create and update requests
carry their pydantic validity: an invalid payload raises at construction
and never reaches the service. -/
inductive Reachable : DB → Prop where
  | empty : Reachable emptyDB
  | create (err : Option CreateErr) (d : PolygonCreate)
      (hd : d.valid = true) {db : DB} :
      Reachable db → Reachable (create_polygon err db d).2
  | update (err : Option UpdateErr) (pid : Nat) (d : PolygonUpdate)
      (hd : d.valid = true) {db : DB} :
      Reachable db → Reachable (update_polygon err db pid d).2
  | delete (err : Option DeleteErr) (pid : Nat) {db : DB} :
      Reachable db → Reachable (delete_polygon err db pid).2

/-! ### Concrete fixtures used by the claim witnesses -/

/-- A concrete valid creation request: a closed triangle. -/
def dW : PolygonCreate :=
  { name := "A", coordinates := [[[0, 0], [1, 0], [0, 0]]], properties := [] }

/-- The database after one error-free create on empty storage. -/
def dbW : DB := (create_polygon none emptyDB dW).2

/-- The row stored in `dbW`. -/
def pW : Polygon :=
  { id := some 1, name := "A", coordinates := [[[0, 0], [1, 0], [0, 0]]]
    properties := [], created_at := 0, updated_at := none }

/-- The empty update request (no field supplied). -/
def u0 : PolygonUpdate :=
  { name := none, coordinates := none, properties := none }

/-- A concrete name-only update request. -/
def uW : PolygonUpdate :=
  { name := some "B", coordinates := none, properties := none }

/-- A creation request whose name " " passes validation (length 1) but
is all whitespace. -/
def dBlank : PolygonCreate :=
  { name := " ", coordinates := [[[0, 0], [1, 0], [0, 0]]], properties := [] }

/-! ### Invariants of reachable states -/

/-- Per-row well-formedness relative to the database counters: the id is
assigned, positive, and below the auto-increment counter; the creation
stamp is in the past; the name respects the pydantic bounds; the
coordinate list is non-empty. -/
def rowOk (db : DB) (p : Polygon) : Prop :=
  (∃ k, p.id = some k ∧ 0 < k ∧ k < db.nextId) ∧
  p.created_at < db.clock ∧
  1 ≤ p.name.length ∧ p.name.length ≤ 255 ∧
  p.coordinates ≠ []

/-- Database invariant: the counter starts at 1, every row is well
formed, ids are pairwise distinct, and rows are in strictly increasing
creation order. -/
def DBInv (db : DB) : Prop :=
  1 ≤ db.nextId ∧
  (∀ p ∈ db.rows, rowOk db p) ∧
  db.rows.Pairwise (fun a b => a.id ≠ b.id) ∧
  db.rows.Pairwise (fun a b => a.created_at < b.created_at)

theorem inv_empty : DBInv emptyDB := by
  refine ⟨le_refl 1, ?_, ?_, ?_⟩ <;> simp [emptyDB]

/-- The state component of `create_polygon`, by cases on the error. -/
theorem create_polygon_snd (err : Option CreateErr) (db : DB)
    (d : PolygonCreate) :
    (create_polygon err db d).2 =
      if err = some CreateErr.atCommit then db
      else
        { rows := db.rows ++
            [{ id := some db.nextId, name := d.name
               coordinates := d.coordinates, properties := d.properties
               created_at := db.clock, updated_at := none }]
          nextId := db.nextId + 1, clock := db.clock + 1 } := by
  unfold create_polygon
  by_cases h : err = some CreateErr.atCommit <;> simp [h]
  by_cases h2 : err = some CreateErr.atRefresh <;> simp [h2]

/-- The state component of `update_polygon`, by cases on the error and
the lookup. -/
theorem update_polygon_snd (err : Option UpdateErr) (db : DB) (pid : Nat)
    (d : PolygonUpdate) :
    (update_polygon err db pid d).2 =
      if err = some UpdateErr.atGet then db
      else
        match db.rows.find? (fun q => q.id == some pid) with
        | none => db
        | some p =>
          if err = some UpdateErr.atCommit then db
          else
            { rows := db.rows.map
                (fun q => if q.id == some pid then applyUpdate d db.clock p
                          else q)
              nextId := db.nextId, clock := db.clock + 1 } := by
  unfold update_polygon
  by_cases h : err = some UpdateErr.atGet <;> simp [h]
  cases hf : db.rows.find? (fun q => q.id == some pid) with
  | none => rfl
  | some p =>
    by_cases h2 : err = some UpdateErr.atCommit <;> simp [h2]
    by_cases h3 : err = some UpdateErr.atRefresh <;> simp [h3]

/-- The state component of `delete_polygon`, by cases on the error and
the lookup. -/
theorem delete_polygon_snd (err : Option DeleteErr) (db : DB) (pid : Nat) :
    (delete_polygon err db pid).2 =
      if err = some DeleteErr.atGet then db
      else
        match db.rows.find? (fun q => q.id == some pid) with
        | none => db
        | some _ =>
          if err = some DeleteErr.atCommit then db
          else { db with rows := db.rows.eraseP (fun q => q.id == some pid) } := by
  unfold delete_polygon
  by_cases h : err = some DeleteErr.atGet <;> simp [h]
  cases hf : db.rows.find? (fun q => q.id == some pid) with
  | none => rfl
  | some p =>
    by_cases h2 : err = some DeleteErr.atCommit <;> simp [h2]

/-- A successful primary-key lookup pins the row's membership and id. -/
theorem find?_id_spec {l : List Polygon} {pid : Nat} {p : Polygon}
    (h : l.find? (fun q => q.id == some pid) = some p) :
    p ∈ l ∧ p.id = some pid := by
  refine ⟨List.mem_of_find?_eq_some h, ?_⟩
  have hb := List.find?_some h
  exact eq_of_beq hb

/-- With pairwise distinct ids, two members with the same id coincide. -/
theorem eq_of_mem_of_id_eq {l : List Polygon}
    (hl : l.Pairwise (fun a b => a.id ≠ b.id)) {p q : Polygon}
    (hp : p ∈ l) (hq : q ∈ l) (h : q.id = p.id) : q = p := by
  induction l with
  | nil => cases hp
  | cons x xs ih =>
    rcases List.pairwise_cons.mp hl with ⟨hx, hxs⟩
    rcases List.mem_cons.mp hp with hp1 | hp1 <;>
      rcases List.mem_cons.mp hq with hq1 | hq1
    · rw [hq1, hp1]
    · subst hp1; exact absurd h (Ne.symm (hx q hq1))
    · subst hq1; exact absurd h (hx p hp1)
    · exact ih hxs hp1 hq1

/-- A map that preserves a projection preserves pairwise relations on
that projection. -/
theorem pairwise_map_of_proj {β : Type} {R : β → β → Prop}
    (g : Polygon → β) {l : List Polygon} {f : Polygon → Polygon}
    (hf : ∀ q ∈ l, g (f q) = g q)
    (h : l.Pairwise (fun a b => R (g a) (g b))) :
    (l.map f).Pairwise (fun a b => R (g a) (g b)) := by
  rw [List.pairwise_map]
  exact h.imp_of_mem (fun ha hb hr => by rw [hf _ ha, hf _ hb]; exact hr)

theorem inv_create {db : DB} (err : Option CreateErr) (d : PolygonCreate)
    (hd : d.valid = true) (h : DBInv db) : DBInv (create_polygon err db d).2 := by
  rcases h with ⟨h1, h2, h3, h4⟩
  rw [create_polygon_snd]
  by_cases he : err = some CreateErr.atCommit
  · rw [if_pos he]; exact ⟨h1, h2, h3, h4⟩
  rw [if_neg he]
  simp only [PolygonCreate.valid, Bool.and_eq_true, decide_eq_true_eq] at hd
  obtain ⟨⟨hn1, hn2⟩, hco⟩ := hd
  refine ⟨Nat.le_succ_of_le h1, ?_, ?_, ?_⟩
  · intro p hp
    rcases List.mem_append.mp hp with hp1 | hp1
    · obtain ⟨⟨k, hk, hk0, hklt⟩, hc, hb1, hb2, hb3⟩ := h2 p hp1
      exact ⟨⟨k, hk, hk0, Nat.lt_succ_of_lt hklt⟩, Nat.lt_succ_of_lt hc,
        hb1, hb2, hb3⟩
    · rcases List.mem_singleton.mp hp1 with rfl
      exact ⟨⟨db.nextId, rfl, h1, Nat.lt_succ_self _⟩, Nat.lt_succ_self _,
        hn1, hn2, hco⟩
  · refine List.pairwise_append.mpr ⟨h3, List.pairwise_singleton _ _, ?_⟩
    intro a ha b hb
    rcases List.mem_singleton.mp hb with rfl
    obtain ⟨⟨k, hk, _, hklt⟩, _⟩ := h2 a ha
    rw [hk]
    intro hcon
    rw [Option.some_inj] at hcon
    omega
  · refine List.pairwise_append.mpr ⟨h4, List.pairwise_singleton _ _, ?_⟩
    intro a ha b hb
    rcases List.mem_singleton.mp hb with rfl
    obtain ⟨_, hc, _⟩ := h2 a ha
    exact hc

theorem inv_update {db : DB} (err : Option UpdateErr) (pid : Nat)
    (d : PolygonUpdate) (hd : d.valid = true) (h : DBInv db) :
    DBInv (update_polygon err db pid d).2 := by
  rcases h with ⟨h1, h2, h3, h4⟩
  rw [update_polygon_snd]
  by_cases he : err = some UpdateErr.atGet
  · rw [if_pos he]; exact ⟨h1, h2, h3, h4⟩
  rw [if_neg he]
  cases hf : db.rows.find? (fun q => q.id == some pid) with
  | none => exact ⟨h1, h2, h3, h4⟩
  | some p =>
    dsimp only
    by_cases hc : err = some UpdateErr.atCommit
    · rw [if_pos hc]; exact ⟨h1, h2, h3, h4⟩
    rw [if_neg hc]
    obtain ⟨hpm, hpid⟩ := find?_id_spec hf
    simp only [PolygonUpdate.valid, Bool.and_eq_true, decide_eq_true_eq] at hd
    obtain ⟨hdn, hdc⟩ := hd
    have hid : ∀ q ∈ db.rows,
        (if q.id == some pid then applyUpdate d db.clock p else q).id = q.id := by
      intro q _
      by_cases hqi : (q.id == some pid) = true
      · rw [if_pos hqi, eq_of_beq hqi]
        simp [applyUpdate, Polygon.update_timestamp, hpid]
      · rw [if_neg hqi]
    have hct : ∀ q ∈ db.rows,
        (if q.id == some pid then applyUpdate d db.clock p else q).created_at
          = q.created_at := by
      intro q hq
      by_cases hqi : (q.id == some pid) = true
      · have hq_eq : q = p := eq_of_mem_of_id_eq h3 hpm hq ((eq_of_beq hqi).trans hpid.symm)
        rw [if_pos hqi, hq_eq]
        simp [applyUpdate, Polygon.update_timestamp]
      · rw [if_neg hqi]
    refine ⟨h1, ?_, ?_, ?_⟩
    · intro x hx
      rcases List.mem_map.mp hx with ⟨q, hq, rfl⟩
      obtain ⟨⟨k, hk, hk0, hklt⟩, hcq, hb1, hb2, hb3⟩ := h2 q hq
      by_cases hqi : (q.id == some pid) = true
      · rw [if_pos hqi]
        obtain ⟨⟨k', hk', hk0', hklt'⟩, hcp, hp1, hp2, hp3⟩ := h2 p hpm
        refine ⟨⟨k', hk', hk0', hklt'⟩, Nat.lt_succ_of_lt hcp, ?_, ?_, ?_⟩
        · cases hn : d.name with
          | none => simpa [applyUpdate, Polygon.update_timestamp, hn] using hp1
          | some n =>
            rw [hn] at hdn
            dsimp only at hdn
            rw [Bool.and_eq_true, decide_eq_true_eq, decide_eq_true_eq] at hdn
            simpa [applyUpdate, Polygon.update_timestamp, hn] using hdn.1
        · cases hn : d.name with
          | none => simpa [applyUpdate, Polygon.update_timestamp, hn] using hp2
          | some n =>
            rw [hn] at hdn
            dsimp only at hdn
            rw [Bool.and_eq_true, decide_eq_true_eq, decide_eq_true_eq] at hdn
            simpa [applyUpdate, Polygon.update_timestamp, hn] using hdn.2
        · cases hco : d.coordinates with
          | none => simpa [applyUpdate, Polygon.update_timestamp, hco] using hp3
          | some c =>
            rw [hco] at hdc
            dsimp only at hdc
            rw [decide_eq_true_eq] at hdc
            simpa [applyUpdate, Polygon.update_timestamp, hco] using hdc
      · rw [if_neg hqi]
        exact ⟨⟨k, hk, hk0, hklt⟩, Nat.lt_succ_of_lt hcq, hb1, hb2, hb3⟩
    · exact pairwise_map_of_proj (fun x => x.id) hid h3
    · exact pairwise_map_of_proj (fun x => x.created_at) hct h4

theorem inv_delete {db : DB} (err : Option DeleteErr) (pid : Nat)
    (h : DBInv db) : DBInv (delete_polygon err db pid).2 := by
  rcases h with ⟨h1, h2, h3, h4⟩
  rw [delete_polygon_snd]
  by_cases he : err = some DeleteErr.atGet
  · rw [if_pos he]; exact ⟨h1, h2, h3, h4⟩
  rw [if_neg he]
  cases hf : db.rows.find? (fun q => q.id == some pid) with
  | none => exact ⟨h1, h2, h3, h4⟩
  | some p =>
    dsimp only
    by_cases hc : err = some DeleteErr.atCommit
    · rw [if_pos hc]; exact ⟨h1, h2, h3, h4⟩
    rw [if_neg hc]
    have hs := List.eraseP_sublist (p := fun q => q.id == some pid) db.rows
    exact ⟨h1, fun x hx => h2 x (List.Sublist.mem hx hs),
      List.Pairwise.sublist hs h3, List.Pairwise.sublist hs h4⟩

/-- Every reachable state satisfies the database invariant. -/
theorem inv_reachable {db : DB} (h : Reachable db) : DBInv db := by
  induction h with
  | empty => exact inv_empty
  | create err d hd _ ih => exact inv_create err d hd ih
  | update err pid d hd _ ih => exact inv_update err pid d hd ih
  | delete err pid _ ih => exact inv_delete err pid ih

/-! ### Characterisations of the operations -/

/-- Inserting below everything in the list lands at the end. -/
theorem insertDesc_of_lt {p : Polygon} {l : List Polygon}
    (h : ∀ q ∈ l, p.created_at < q.created_at) :
    insertDesc p l = l ++ [p] := by
  induction l with
  | nil => rfl
  | cons q qs ih =>
    have hq : ¬ q.created_at ≤ p.created_at :=
      not_le.mpr (h q (List.mem_cons_self q qs))
    simp only [insertDesc, if_neg hq, List.cons_append]
    rw [ih (fun r hr => h r (List.mem_cons_of_mem q hr))]

/-- Sorting descending a list that is ascending in `created_at` reverses it. -/
theorem sortDesc_eq_reverse {l : List Polygon}
    (h : l.Pairwise (fun a b => a.created_at < b.created_at)) :
    sortDesc l = l.reverse := by
  induction l with
  | nil => rfl
  | cons p ps ih =>
    rcases List.pairwise_cons.mp h with ⟨hp, hps⟩
    simp only [sortDesc]
    rw [ih hps, insertDesc_of_lt (fun q hq => hp q (List.mem_reverse.mp hq)),
      List.reverse_cons]

/-- The success path of `create_polygon` in closed form. -/
theorem create_polygon_none_eq (db : DB) (d : PolygonCreate) :
    create_polygon none db d =
      (some (PolygonResponse.from_polygon
        { id := some db.nextId, name := d.name, coordinates := d.coordinates
          properties := d.properties, created_at := db.clock, updated_at := none }),
       { rows := db.rows ++
           [{ id := some db.nextId, name := d.name, coordinates := d.coordinates
              properties := d.properties, created_at := db.clock, updated_at := none }]
         nextId := db.nextId + 1, clock := db.clock + 1 }) := rfl

/-- On a successful lookup, the error-free update commits the modified
row and returns its response. -/
theorem update_polygon_found {db : DB} {pid : Nat} {p : Polygon}
    (d : PolygonUpdate)
    (hf : db.rows.find? (fun q => q.id == some pid) = some p) :
    update_polygon none db pid d =
      (some (PolygonResponse.from_polygon (applyUpdate d db.clock p)),
       { rows := db.rows.map
           (fun q => if q.id == some pid then applyUpdate d db.clock p else q)
         nextId := db.nextId, clock := db.clock + 1 }) := by
  simp [update_polygon, hf]

/-- Lookup failure makes the error-free update a no-op returning `none`. -/
theorem update_polygon_not_found {db : DB} {pid : Nat} (d : PolygonUpdate)
    (hf : db.rows.find? (fun q => q.id == some pid) = none) :
    update_polygon none db pid d = (none, db) := by
  simp [update_polygon, hf]

/-- The error-free read maps the primary-key lookup to a response. -/
theorem get_polygon_false (db : DB) (pid : Nat) :
    get_polygon false db pid =
      (db.rows.find? (fun q => q.id == some pid)).map
        PolygonResponse.from_polygon := by
  unfold get_polygon
  cases h : db.rows.find? (fun q => q.id == some pid) <;> simp [h]

/-- On a successful lookup, the error-free delete erases the row and
returns `true`. -/
theorem delete_polygon_found {db : DB} {pid : Nat} {p : Polygon}
    (hf : db.rows.find? (fun q => q.id == some pid) = some p) :
    delete_polygon none db pid =
      (true, { db with rows := db.rows.eraseP (fun q => q.id == some pid) }) := by
  simp [delete_polygon, hf]

/-- Lookup failure makes the error-free delete return `false` unchanged. -/
theorem delete_polygon_not_found {db : DB} {pid : Nat}
    (hf : db.rows.find? (fun q => q.id == some pid) = none) :
    delete_polygon none db pid = (false, db) := by
  simp [delete_polygon, hf]

/-- No stored row carries the yet-unassigned id `nextId`. -/
theorem find?_nextId_none {db : DB} (h : DBInv db) :
    db.rows.find? (fun q => q.id == some db.nextId) = none := by
  apply List.find?_eq_none.mpr
  intro q hq hb
  obtain ⟨⟨k, hk, _, hklt⟩, _⟩ := h.2.1 q hq
  have hqe := eq_of_beq hb
  rw [hk, Option.some_inj] at hqe
  omega

/-- After erasing the (unique) row with a given id, lookups of that id
fail. -/
theorem find?_eraseP_none {l : List Polygon}
    (hl : l.Pairwise (fun a b => a.id ≠ b.id)) {pid : Nat} {p : Polygon}
    (h : l.find? (fun q => q.id == some pid) = some p) :
    (l.eraseP (fun q => q.id == some pid)).find?
      (fun q => q.id == some pid) = none := by
  induction l with
  | nil => cases h
  | cons x xs ih =>
    rcases List.pairwise_cons.mp hl with ⟨hx, hxs⟩
    by_cases hpx : (x.id == some pid) = true
    · rw [List.eraseP_cons_of_pos (p := fun q : Polygon => q.id == some pid) hpx]
      apply List.find?_eq_none.mpr
      intro q hq hq'
      exact hx q hq ((eq_of_beq hpx).trans (eq_of_beq hq').symm)
    · rw [List.eraseP_cons_of_neg (p := fun q : Polygon => q.id == some pid) hpx]
      rw [List.find?_cons_of_neg (p := fun q : Polygon => q.id == some pid) _ hpx] at h
      rw [List.find?_cons_of_neg (p := fun q : Polygon => q.id == some pid) _ hpx]
      exact ih hxs h

/-- The fresh row is found at its fresh id right after the insert. -/
theorem get_after_create {db : DB} (d : PolygonCreate) (h : DBInv db) :
    get_polygon false (create_polygon none db d).2 db.nextId =
      (create_polygon none db d).1 := by
  rw [create_polygon_none_eq]
  dsimp only
  rw [get_polygon_false, List.find?_append, find?_nextId_none h]
  rw [Option.none_or, List.find?_cons_of_pos _ (by simp)]
  rfl

/-- A failed create reports `None` and leaves the state unchanged,
except that a failure at `session.refresh` happens after the commit. -/
theorem create_polygon_fail (db : DB) (d : PolygonCreate) :
    create_polygon (some CreateErr.atCommit) db d = (none, db) := rfl

theorem create_polygon_atRefresh_fst (db : DB) (d : PolygonCreate) :
    (create_polygon (some CreateErr.atRefresh) db d).1 = none := rfl

/-- A failed update (error not after the commit) reports `None` and
leaves the state unchanged. -/
theorem update_polygon_fail (ue : UpdateErr) (db : DB) (pid : Nat)
    (d : PolygonUpdate) (h : ue ≠ UpdateErr.atRefresh) :
    update_polygon (some ue) db pid d = (none, db) := by
  cases ue with
  | atGet => rfl
  | atCommit =>
    unfold update_polygon
    cases db.rows.find? (fun q => q.id == some pid) <;> rfl
  | atRefresh => exact absurd rfl h

theorem update_polygon_atRefresh_fst (db : DB) (pid : Nat)
    (d : PolygonUpdate) :
    (update_polygon (some UpdateErr.atRefresh) db pid d).1 = none := by
  unfold update_polygon
  cases db.rows.find? (fun q => q.id == some pid) <;> rfl

/-- A failed delete reports `False` and leaves the state unchanged. -/
theorem delete_polygon_fail (de : DeleteErr) (db : DB) (pid : Nat) :
    delete_polygon (some de) db pid = (false, db) := by
  cases de with
  | atGet => rfl
  | atCommit =>
    unfold delete_polygon
    cases db.rows.find? (fun q => q.id == some pid) <;> rfl

/-! ### Facts about the concrete fixtures -/




theorem dbW_reachable : Reachable dbW :=
  Reachable.create none dW (by decide) Reachable.empty

theorem dbW_find_one : dbW.rows.find? (fun q => q.id == some 1) = some pW := rfl

theorem dbW_find_two : dbW.rows.find? (fun q => q.id == some 2) = none := rfl

theorem pW_mem_dbW : pW ∈ dbW.rows := List.mem_cons_self pW []

/-! ### The claims -/

/-- C1 counterexample: a storage error raised at `session.refresh`
happens after `session.commit`, so `create_polygon` reports failure
(`None`) while the inserted row persists: the stored state IS changed by
a failed operation, refuting the claim that every storage-layer error
leaves the stored state unchanged. -/
theorem C1_counterexample :
    (create_polygon (some CreateErr.atRefresh) emptyDB dW).1 = none ∧
    (create_polygon (some CreateErr.atRefresh) emptyDB dW).2.rows.length = 1 ∧
    emptyDB.rows.length = 0 ∧
    (create_polygon (some CreateErr.atRefresh) emptyDB dW).2 ≠ emptyDB :=
  ⟨rfl, rfl, rfl, fun h =>
    absurd (congrArg (fun s => s.rows.length) h) (by decide)⟩

/-- C1 amended: every storage-layer error is converted into the
operation's unsuccessful value (`None` for create/get/update, `false`
for delete, the empty list response for list) and never propagates; the
stored state is unchanged by the failed operation whenever the error is
raised at or before `session.commit` (get and list never write at all);
an error at `session.refresh` — after the commit in create and update —
still reports the unsuccessful value, but the committed change persists. -/
theorem C1_error_shield (db : DB) (cd : PolygonCreate) (ud : PolygonUpdate)
    (pid : Nat) (ce : CreateErr) (ue : UpdateErr) (de : DeleteErr)
    (hc : ce ≠ CreateErr.atRefresh) (hu : ue ≠ UpdateErr.atRefresh) :
    create_polygon (some ce) db cd = (none, db) ∧
    get_polygon true db pid = none ∧
    list_polygons true db = { polygons := [], total := 0 } ∧
    update_polygon (some ue) db pid ud = (none, db) ∧
    delete_polygon (some de) db pid = (false, db) ∧
    (create_polygon (some CreateErr.atRefresh) db cd).1 = none ∧
    (update_polygon (some UpdateErr.atRefresh) db pid ud).1 = none := by
  refine ⟨?_, rfl, rfl, update_polygon_fail ue db pid ud hu,
    delete_polygon_fail de db pid, create_polygon_atRefresh_fst db cd,
    update_polygon_atRefresh_fst db pid ud⟩
  cases ce with
  | atCommit => exact create_polygon_fail db cd
  | atRefresh => exact absurd rfl hc


theorem C1_error_shield_witness :
    create_polygon (some CreateErr.atCommit) emptyDB dW = (none, emptyDB) ∧
    get_polygon true emptyDB 1 = none ∧
    list_polygons true emptyDB = { polygons := [], total := 0 } ∧
    update_polygon (some UpdateErr.atCommit) emptyDB 1 u0 = (none, emptyDB) ∧
    delete_polygon (some DeleteErr.atCommit) emptyDB 1 = (false, emptyDB) ∧
    (create_polygon (some CreateErr.atRefresh) emptyDB dW).1 = none ∧
    (update_polygon (some UpdateErr.atRefresh) emptyDB 1 u0).1 = none :=
  C1_error_shield emptyDB dW u0 1 CreateErr.atCommit UpdateErr.atCommit
    DeleteErr.atCommit (by decide) (by decide)

/-- C2: updating an existing polygon changes exactly the supplied
fields: the response (and the committed row) carry each supplied field's
new value, omitted fields keep their prior values, `id` and `created_at`
are unchanged, and `updated_at` is set to the current time.  Supplying
only `name` is the instance `u = {name := some X}`. -/
theorem C2_update_frame (db : DB) (i : Nat) (p : Polygon) (u : PolygonUpdate)
    (hf : db.rows.find? (fun q => q.id == some i) = some p) :
    ∃ resp, (update_polygon none db i u).1 = some resp ∧
      resp.name = u.name.getD p.name ∧
      resp.coordinates = u.coordinates.getD p.coordinates ∧
      resp.properties = u.properties.getD p.properties ∧
      resp.id = p.id.getD 0 ∧
      resp.created_at = isoformat p.created_at ∧
      resp.updated_at = some (isoformat db.clock) ∧
      (update_polygon none db i u).2.rows
        = db.rows.map
            (fun q => if q.id == some i then applyUpdate u db.clock p else q) := by
  rw [update_polygon_found u hf]
  exact ⟨_, rfl, rfl, rfl, rfl, rfl, rfl, rfl, rfl⟩


theorem C2_update_frame_witness :
    ∃ resp, (update_polygon none dbW 1 uW).1 = some resp ∧
      resp.name = uW.name.getD pW.name ∧
      resp.coordinates = uW.coordinates.getD pW.coordinates ∧
      resp.properties = uW.properties.getD pW.properties ∧
      resp.id = pW.id.getD 0 ∧
      resp.created_at = isoformat pW.created_at ∧
      resp.updated_at = some (isoformat dbW.clock) ∧
      (update_polygon none dbW 1 uW).2.rows
        = dbW.rows.map
            (fun q => if q.id == some 1 then applyUpdate uW dbW.clock pW else q) :=
  C2_update_frame dbW 1 pW uW dbW_find_one

/-- C3: an error-free create from a valid request succeeds: the response
carries the newly assigned id `nextId`, which is positive and distinct
from every stored row's id, a `created_at` stamp, and no `updated_at`. -/
theorem C3_create_success (db : DB) (d : PolygonCreate)
    (hr : Reachable db) (_hv : d.valid = true) :
    ∃ resp, (create_polygon none db d).1 = some resp ∧
      resp.id = db.nextId ∧ 0 < resp.id ∧
      (∀ q ∈ db.rows, q.id ≠ some resp.id) ∧
      resp.created_at = isoformat db.clock ∧
      resp.updated_at = none := by
  obtain ⟨h1, h2, _, _⟩ := inv_reachable hr
  refine ⟨_, rfl, rfl, h1, ?_, rfl, rfl⟩
  intro q hq heq
  obtain ⟨⟨k, hk, _, hklt⟩, _⟩ := h2 q hq
  rw [hk, Option.some_inj] at heq
  have hke : k = db.nextId := heq
  omega

theorem C3_create_success_witness :
    ∃ resp, (create_polygon none emptyDB dW).1 = some resp ∧
      resp.id = emptyDB.nextId ∧ 0 < resp.id ∧
      (∀ q ∈ emptyDB.rows, q.id ≠ some resp.id) ∧
      resp.created_at = isoformat emptyDB.clock ∧
      resp.updated_at = none :=
  C3_create_success emptyDB dW Reachable.empty (by decide)

/-- C4: the error-free list returns all stored rows most recently
created first (the reverse of insertion order, which is descending in
`created_at`), `total` equals both the number of returned entries and
the number of stored rows, each error-free create grows the store by
exactly one row, and listing empty storage yields no entries, total 0. -/
theorem C4_list (db : DB) (d : PolygonCreate) (hr : Reachable db) :
    (list_polygons false db).polygons
        = db.rows.reverse.map PolygonResponse.from_polygon ∧
    (list_polygons false db).total = (list_polygons false db).polygons.length ∧
    (list_polygons false db).total = db.rows.length ∧
    (sortDesc db.rows).Pairwise (fun a b => b.created_at < a.created_at) ∧
    (create_polygon none db d).2.rows.length = db.rows.length + 1 ∧
    list_polygons false emptyDB = { polygons := [], total := 0 } := by
  obtain ⟨_, _, _, h4⟩ := inv_reachable hr
  have hs := sortDesc_eq_reverse h4
  refine ⟨?_, rfl, ?_, ?_, ?_, rfl⟩
  · simp [list_polygons, hs]
  · simp [list_polygons, hs]
  · rw [hs]; exact List.pairwise_reverse.mpr h4
  · rw [create_polygon_none_eq]; simp

theorem C4_list_witness :
    (list_polygons false dbW).polygons
        = dbW.rows.reverse.map PolygonResponse.from_polygon ∧
    (list_polygons false dbW).total = (list_polygons false dbW).polygons.length ∧
    (list_polygons false dbW).total = dbW.rows.length ∧
    (sortDesc dbW.rows).Pairwise (fun a b => b.created_at < a.created_at) ∧
    (create_polygon none dbW dW).2.rows.length = dbW.rows.length + 1 ∧
    list_polygons false emptyDB = { polygons := [], total := 0 } :=
  C4_list dbW dW dbW_reachable


/-- C5 counterexample: validation only bounds the untrimmed character
count (`min_length=1`), so the single-space name " " is accepted and the
reachable state after creating it stores a name every character of which
is whitespace (hence it trims to the empty string) — refuting "never
all-whitespace after trimming". -/
theorem C5_counterexample :
    dBlank.valid = true ∧
    Reachable (create_polygon none emptyDB dBlank).2 ∧
    ((create_polygon none emptyDB dBlank).2.rows.map (fun p => p.name)) = [" "] ∧
    ((create_polygon none emptyDB dBlank).2.rows.map
      (fun p => p.name.data.all Char.isWhitespace)) = [true] :=
  ⟨by decide, Reachable.create none dBlank (by decide) Reachable.empty,
    by decide, by decide⟩

/-- C5 amended: every stored name is non-empty (create and update only
accept names of 1 to 255 characters), though it may consist entirely of
whitespace since no trimming is validated. -/
theorem C5_name_invariant (db : DB) (hr : Reachable db) :
    ∀ p ∈ db.rows, 1 ≤ p.name.length ∧ p.name.length ≤ 255 :=
  fun p hp =>
    ⟨((inv_reachable hr).2.1 p hp).2.2.1,
     ((inv_reachable hr).2.1 p hp).2.2.2.1⟩

theorem C5_name_invariant_witness :
    1 ≤ pW.name.length ∧ pW.name.length ≤ 255 :=
  C5_name_invariant dbW dbW_reachable pW pW_mem_dbW

/-- C6: deleting an existing id returns true and removes the row, so a
subsequent get of that id returns none; deleting a non-existent id
returns false (state unchanged, no error), and get and update on an
absent id return the distinct no-result value `none` (update leaving the
state unchanged). -/
theorem C6_delete_semantics (db : DB) (i j : Nat) (p : Polygon)
    (u : PolygonUpdate) (hr : Reachable db)
    (hf : db.rows.find? (fun q => q.id == some i) = some p)
    (hj : db.rows.find? (fun q => q.id == some j) = none) :
    (delete_polygon none db i).1 = true ∧
    get_polygon false (delete_polygon none db i).2 i = none ∧
    delete_polygon none db j = (false, db) ∧
    get_polygon false db j = none ∧
    update_polygon none db j u = (none, db) := by
  obtain ⟨_, _, h3, _⟩ := inv_reachable hr
  refine ⟨?_, ?_, delete_polygon_not_found hj, ?_,
    update_polygon_not_found u hj⟩
  · rw [delete_polygon_found hf]
  · rw [delete_polygon_found hf, get_polygon_false]
    dsimp only
    rw [find?_eraseP_none h3 hf]
    rfl
  · rw [get_polygon_false, hj]
    rfl

theorem C6_delete_semantics_witness :
    (delete_polygon none dbW 1).1 = true ∧
    get_polygon false (delete_polygon none dbW 1).2 1 = none ∧
    delete_polygon none dbW 2 = (false, dbW) ∧
    get_polygon false dbW 2 = none ∧
    update_polygon none dbW 2 u0 = (none, dbW) :=
  C6_delete_semantics dbW 1 2 pW u0 dbW_reachable dbW_find_one dbW_find_two

/-- C7: immediately after an error-free create, get at the returned id
returns a response equal to the create response in every field (both
carry the same string-serialised timestamps), and the request's name,
coordinates and arbitrary JSON properties round-trip unchanged. -/
theorem C7_round_trip (db : DB) (d : PolygonCreate) (hr : Reachable db) :
    ∃ resp, (create_polygon none db d).1 = some resp ∧
      get_polygon false (create_polygon none db d).2 resp.id = some resp ∧
      resp.name = d.name ∧ resp.coordinates = d.coordinates ∧
      resp.properties = d.properties := by
  have hinv := inv_reachable hr
  refine ⟨_, rfl, ?_, rfl, rfl, rfl⟩
  exact get_after_create d hinv

theorem C7_round_trip_witness :
    ∃ resp, (create_polygon none emptyDB dW).1 = some resp ∧
      get_polygon false (create_polygon none emptyDB dW).2 resp.id
        = some resp ∧
      resp.name = dW.name ∧ resp.coordinates = dW.coordinates ∧
      resp.properties = dW.properties :=
  C7_round_trip emptyDB dW Reachable.empty

/-- C8: in every reachable state, every stored polygon has non-empty
coordinates: creation requires at least one ring and an update either
keeps the stored rings or replaces them by a validated non-empty list. -/
theorem C8_coordinates_invariant (db : DB) (hr : Reachable db) :
    ∀ p ∈ db.rows, p.coordinates ≠ [] :=
  fun p hp => ((inv_reachable hr).2.1 p hp).2.2.2.2

theorem C8_coordinates_invariant_witness : pW.coordinates ≠ [] :=
  C8_coordinates_invariant dbW dbW_reachable pW pW_mem_dbW

/-- C9: a storage error makes get return the same `none` as a not-found
lookup, and makes list return the same `{polygons := [], total := 0}` as
a successful list over empty storage: the caller cannot distinguish a
storage failure from a benign outcome. -/
theorem C9_error_indistinguishable (db : DB) (pid : Nat)
    (h : db.rows.find? (fun q => q.id == some pid) = none) :
    get_polygon true db pid = none ∧
    get_polygon false db pid = none ∧
    get_polygon true db pid = get_polygon false db pid ∧
    list_polygons true db = { polygons := [], total := 0 } ∧
    list_polygons false emptyDB = { polygons := [], total := 0 } ∧
    list_polygons true db = list_polygons false emptyDB := by
  have hg : get_polygon false db pid = none := by
    rw [get_polygon_false, h]
    rfl
  exact ⟨rfl, hg, hg.symm, rfl, rfl, rfl⟩

theorem C9_error_indistinguishable_witness :
    get_polygon true emptyDB 1 = none ∧
    get_polygon false emptyDB 1 = none ∧
    get_polygon true emptyDB 1 = get_polygon false emptyDB 1 ∧
    list_polygons true emptyDB = { polygons := [], total := 0 } ∧
    list_polygons false emptyDB = { polygons := [], total := 0 } ∧
    list_polygons true emptyDB = list_polygons false emptyDB :=
  C9_error_indistinguishable emptyDB 1 rfl

/-- C10: an empty update on an existing id succeeds (no failure, no
not-found), leaves name, coordinates and properties unchanged in the
response and in the stored row, and still sets `updated_at` to the
current time. -/
theorem C10_empty_update (db : DB) (i : Nat) (p : Polygon)
    (hf : db.rows.find? (fun q => q.id == some i) = some p) :
    ∃ resp,
      (update_polygon none db i
        { name := none, coordinates := none, properties := none }).1
        = some resp ∧
      resp.name = p.name ∧ resp.coordinates = p.coordinates ∧
      resp.properties = p.properties ∧
      resp.updated_at = some (isoformat db.clock) ∧
      (update_polygon none db i
        { name := none, coordinates := none, properties := none }).2.rows
        = db.rows.map (fun q =>
            if q.id == some i then { p with updated_at := some db.clock }
            else q) := by
  rw [update_polygon_found
    { name := none, coordinates := none, properties := none } hf]
  exact ⟨_, rfl, rfl, rfl, rfl, rfl, rfl⟩

theorem C10_empty_update_witness :
    ∃ resp,
      (update_polygon none dbW 1
        { name := none, coordinates := none, properties := none }).1
        = some resp ∧
      resp.name = pW.name ∧ resp.coordinates = pW.coordinates ∧
      resp.properties = pW.properties ∧
      resp.updated_at = some (isoformat dbW.clock) ∧
      (update_polygon none dbW 1
        { name := none, coordinates := none, properties := none }).2.rows
        = dbW.rows.map (fun q =>
            if q.id == some 1 then { pW with updated_at := some dbW.clock }
            else q) :=
  C10_empty_update dbW 1 pW dbW_find_one
